import Mathlib

/-!
Verification of the reusable batch-normalization GPU primitive
(`src/gpu/ocl/bnorm/reusable_bnorm.hpp`): the compile-time configuration
record and its cache-key serialization, the forward/backward descriptor
validation, and the kernel-set resolution performed at primitive init.
-/

namespace ReusableBnorm

/-- Bytes of the serialized image. -/
abbrev byte := Fin 256

/-- Statuses returned by the primitive-descriptor and primitive operations
(`status_t` from the common status enumeration; only the values this file's
code paths produce are modelled). -/
inductive status_t where
  | success
  | unimplemented
  | out_of_memory
  | runtime_error
deriving DecidableEq

/-- Element data types, from `common/c_types_map.hpp` (not under src/).
Modelled from the spec: "element data type (one of a small closed set, e.g.
8-bit integer, 32-bit float, two reduced-precision float variants)"; the
constructor codes follow the public `dnnl_data_type_t` enumeration. -/
inductive data_type_t where
  | undef
  | f16
  | bf16
  | f32
  | s32
  | s8
  | u8
  | f64
deriving DecidableEq

/-- Numeric code of a data type in the public enumeration; the low byte of
its 4-byte in-memory representation. -/
def data_type_t.code : data_type_t → byte
  | .undef => 0
  | .f16 => 1
  | .bf16 => 2
  | .f32 => 3
  | .s32 => 4
  | .s8 => 5
  | .u8 => 6
  | .f64 => 7

/-- Byte width of one per-stage tiling descriptor. -/
def dispatch_compile_params_size : Nat := 64

/-- Modelled from the spec: `compute::dispatch_compile_params_t`
(`gpu/compute/dispatch_reusable.hpp`, not under src/) is a per-stage tiling
descriptor, described by the spec only as a flat, fixed-order sequence of
fixed-width fields with no indeterminate padding; it is represented here by
its fixed-width byte image. -/
abbrev dispatch_compile_params_t :=
  {l : List byte // l.length = dispatch_compile_params_size}

/-- The explicit 4-byte padding field of the configuration record. -/
abbrev padding_t := {l : List byte // l.length = 4}

/-- The always-zero value the padding field is initialized to
(`uint8_t padding[4] = {0}`). -/
def zero_padding : padding_t := ⟨[0, 0, 0, 0], rfl⟩

/-- Compile-time configuration record `reusable_bnorm_params_t`
(reusable_bnorm.hpp lines 39-92): one data type, eight boolean flags, an
explicit zero-initialized 4-byte padding field, and three per-stage tiling
descriptors. -/
structure reusable_bnorm_params_t where
  data_type : data_type_t
  use_scale : Bool
  use_shift : Bool
  is_training : Bool
  fuse_norm_relu : Bool
  fuse_norm_add_relu : Bool
  with_relu : Bool
  with_leaky_relu : Bool
  calculate_stats : Bool
  padding : padding_t
  calc_stat_params : dispatch_compile_params_t
  reduce_stat_params : dispatch_compile_params_t
  gws_params : dispatch_compile_params_t
deriving DecidableEq

/-- One-byte image of a `bool` member. -/
def encode_bool (b : Bool) : byte := if b then 1 else 0

/-- Total byte size of the serialized configuration record: a 4-byte enum,
eight 1-byte bools, 4 explicit padding bytes, three tiling descriptors. -/
def serialized_size : Nat := 4 + 8 + 4 + 3 * dispatch_compile_params_size

/-- Modelled from the spec: `serialize()` wraps the record in `serialized_t`
(`gpu/serialization.hpp`, not under src/), which per the spec is the raw
bytes of the trivially-serializable record - every field's fixed-width image
in declaration order, with the alignment gap after the bools occupied by the
explicit `padding` field (little-endian enum; `assert_trivially_serializable`
guarantees no other padding exists). -/
def reusable_bnorm_params_t.serialize (c : reusable_bnorm_params_t) : List byte :=
  c.data_type.code :: 0 :: 0 :: 0 ::
  encode_bool c.use_scale :: encode_bool c.use_shift ::
  encode_bool c.is_training :: encode_bool c.fuse_norm_relu ::
  encode_bool c.fuse_norm_add_relu :: encode_bool c.with_relu ::
  encode_bool c.with_leaky_relu :: encode_bool c.calculate_stats ::
  (c.padding.val ++ (c.calc_stat_params.val ++
    (c.reduce_stat_params.val ++ c.gws_params.val)))

/-- Inverse of `data_type_t.code` on the image bytes. -/
def decode_data_type (b : byte) : Option data_type_t :=
  if b = 0 then some .undef
  else if b = 1 then some .f16
  else if b = 2 then some .bf16
  else if b = 3 then some .f32
  else if b = 4 then some .s32
  else if b = 5 then some .s8
  else if b = 6 then some .u8
  else if b = 7 then some .f64
  else none

/-- Inverse of `encode_bool` on the image bytes. -/
def decode_bool (b : byte) : Option Bool :=
  if b = 1 then some true else if b = 0 then some false else none

/-- Reads a fixed-width chunk off the front of a byte sequence, failing if
not enough bytes remain. -/
def take_chunk (n : Nat) (l : List byte) :
    Option ({x : List byte // x.length = n} × List byte) :=
  if h : n ≤ l.length then
    some (⟨l.take n, by simp only [List.length_take]; omega⟩, l.drop n)
  else none

/-- Modelled from the spec: `deserialize` pops the raw bytes back into a
record via `deserializer_t` (`gpu/serialization.hpp`, not under src/); per
the spec it is the exact inverse of `serialize` and a byte-sequence length
that does not match the expected record size is a hard error (here: `none`),
never a silently misread record. -/
def reusable_bnorm_params_t.deserialize (s : List byte) :
    Option reusable_bnorm_params_t :=
  if s.length = serialized_size then
    match s with
    | d0 :: _ :: _ :: _ :: c1 :: c2 :: c3 :: c4 :: c5 :: c6 :: c7 :: c8 :: rest =>
      (decode_data_type d0).bind fun dt =>
      (decode_bool c1).bind fun use_scale =>
      (decode_bool c2).bind fun use_shift =>
      (decode_bool c3).bind fun is_training =>
      (decode_bool c4).bind fun fuse_norm_relu =>
      (decode_bool c5).bind fun fuse_norm_add_relu =>
      (decode_bool c6).bind fun with_relu =>
      (decode_bool c7).bind fun with_leaky_relu =>
      (decode_bool c8).bind fun calculate_stats =>
      (take_chunk 4 rest).bind fun pr =>
      (take_chunk dispatch_compile_params_size pr.2).bind fun cr =>
      (take_chunk dispatch_compile_params_size cr.2).bind fun rr =>
      (take_chunk dispatch_compile_params_size rr.2).bind fun gr =>
      some { data_type := dt, use_scale := use_scale, use_shift := use_shift,
             is_training := is_training, fuse_norm_relu := fuse_norm_relu,
             fuse_norm_add_relu := fuse_norm_add_relu, with_relu := with_relu,
             with_leaky_relu := with_leaky_relu,
             calculate_stats := calculate_stats, padding := pr.1,
             calc_stat_params := cr.1, reduce_stat_params := rr.1,
             gws_params := gr.1 }
    | _ => none
  else none

/-- Equality of all logical fields of two configuration records: everything
except the explicit padding field. -/
def logical_fields_eq (c1 c2 : reusable_bnorm_params_t) : Prop :=
  c1.data_type = c2.data_type ∧ c1.use_scale = c2.use_scale ∧
  c1.use_shift = c2.use_shift ∧ c1.is_training = c2.is_training ∧
  c1.fuse_norm_relu = c2.fuse_norm_relu ∧
  c1.fuse_norm_add_relu = c2.fuse_norm_add_relu ∧
  c1.with_relu = c2.with_relu ∧ c1.with_leaky_relu = c2.with_leaky_relu ∧
  c1.calculate_stats = c2.calculate_stats ∧
  c1.calc_stat_params = c2.calc_stat_params ∧
  c1.reduce_stat_params = c2.reduce_stat_params ∧
  c1.gws_params = c2.gws_params

instance (c1 c2 : reusable_bnorm_params_t) : Decidable (logical_fields_eq c1 c2) := by
  unfold logical_fields_eq
  infer_instance

/-- Modelled from the spec: `compute::dispatch_runtime_params_t`
(`gpu/compute/dispatch_reusable.hpp`, not under src/) mirrors a tiling
descriptor but carries actual work-item counts bound at launch. -/
structure dispatch_runtime_params_t where
  work_item_counts : List Int
deriving DecidableEq

/-- Run-time parameter record `reusable_bnorm_runtime_params_t`
(reusable_bnorm.hpp lines 94-104). The two `float` members are carried as
their 32-bit patterns; no arithmetic is performed on them here. -/
structure reusable_bnorm_runtime_params_t where
  reduce_dim_stride : Int
  calc_stat_params : dispatch_runtime_params_t
  reduce_stat_params : dispatch_runtime_params_t
  gws_params : dispatch_runtime_params_t
  relu_negative_slope : Nat
  eps : Nat
  stat_ic : Int
  reduction_nelems : Int
  div : Int
  ic : Int
deriving DecidableEq

/-- The state of a forward primitive descriptor that `init` and `execute`
consult: the zero-dimension flag of its memory descriptors plus the two
records built at descriptor initialization. -/
structure fwd_pd_state where
  has_zero_dim_memory : Bool
  conf : reusable_bnorm_params_t
  rt_conf : reusable_bnorm_runtime_params_t

/-- The state of a backward primitive descriptor that `init` and `execute`
consult. -/
structure bwd_pd_state where
  has_zero_dim_memory : Bool
  conf : reusable_bnorm_params_t
  rt_conf : reusable_bnorm_runtime_params_t

/-- Kernel-name resolution in `reusable_batch_normalization_fwd_t::init`
(lines 161-168): the list starts as the main forward kernel plus four null
entries, and the four auxiliary names are filled in exactly when
`conf.calculate_stats` is set. -/
def fwd_kernel_names (conf : reusable_bnorm_params_t) : List (Option String) :=
  if conf.calculate_stats then
    [some "reusable_bnorm_fwd", some "reusable_calculate_mean",
     some "reusable_calculate_variance", some "reusable_reduce_mean",
     some "reusable_reduce_variance"]
  else
    [some "reusable_bnorm_fwd", none, none, none, none]

/-- Kernel-name list in `reusable_batch_normalization_bwd_t::init`
(lines 247-248): always the three backward-pipeline kernels. -/
def bwd_kernel_names : List (Option String) :=
  [some "reusable_bnorm_bwd", some "reusable_calculate_stats",
   some "reusable_reduce_stats"]

/-- The primitive-level `reusable_batch_normalization_fwd_t::init`
(lines 159-180): on a zero-dimension memory descriptor it returns success
immediately, requesting no kernels; otherwise it requests the resolved
kernel-name list from the kernel provider (`create_kernels`, an external
collaborator whose status is a parameter) and propagates that status.
Returns the status and the list of kernel names requested. -/
def reusable_batch_normalization_fwd_init (pd : fwd_pd_state)
    (create_kernels_status : status_t) : status_t × List (Option String) :=
  if pd.has_zero_dim_memory then (status_t.success, [])
  else (create_kernels_status, fwd_kernel_names pd.conf)

/-- The primitive-level `reusable_batch_normalization_bwd_t::init`
(lines 244-258), analogous to the forward one. -/
def reusable_batch_normalization_bwd_init (pd : bwd_pd_state)
    (create_kernels_status : status_t) : status_t × List (Option String) :=
  if pd.has_zero_dim_memory then (status_t.success, [])
  else (create_kernels_status, bwd_kernel_names)

/-- Modelled from the spec: the body of `execute_forward` lives in
`reusable_bnorm.cpp`, which is not under src/. Per the spec, a zero-sized
dimension in any operand skips the entire launch sequence and reports
success with no kernel issued; otherwise the pipeline issues five launches
when statistics are computed internally and one when they are supplied,
with any device error passed through unmodified. Returns the status and
the number of kernel launches issued. -/
def execute_forward (pd : fwd_pd_state) (device_status : status_t) :
    status_t × Nat :=
  if pd.has_zero_dim_memory then (status_t.success, 0)
  else (device_status, if pd.conf.calculate_stats then 5 else 1)

/-- Modelled from the spec: the body of `execute_backward`
(`reusable_bnorm.cpp`, not under src/); the backward pipeline issues three
launches, and a zero-sized dimension skips them all and reports success. -/
def execute_backward (pd : bwd_pd_state) (device_status : status_t) :
    status_t × Nat :=
  if pd.has_zero_dim_memory then (status_t.success, 0)
  else (device_status, 3)

/-- The inputs `reusable_batch_normalization_fwd_t::pd_t::init`
(lines 116-150) reads from the descriptor, the attributes and the compute
engine. Predicate-valued descriptor queries become Bool fields; the
statuses of the two fallible sub-steps (`init_default_ws`, `init_conf`)
are carried as fields since those collaborators are external. -/
structure fwd_desc_t where
  is_fwd : Bool
  src_data_type : data_type_t
  dst_data_type : data_type_t
  mayiuse_khr_fp16 : Bool
  mayiuse_intel_subgroups : Bool
  is_training : Bool
  stats_is_src : Bool
  check_scale_shift_data_type : Bool
  attr_has_default_values_post_ops : Bool
  attr_has_default_values : Bool
  post_ops_len : Nat
  with_relu_post_op : Bool
  set_default_formats_common : Bool
  src_md_eq_dst_md : Bool
  fuse_norm_relu : Bool
  fuse_norm_add_relu : Bool
  init_default_ws_status : status_t
  init_conf_status : status_t

/-- The `ok` conjunction of forward `pd_t::init` (lines 123-140), clause by
clause. -/
def fwd_pd_ok (d : fwd_desc_t) : Prop :=
  d.is_fwd = true
  ∧ (d.src_data_type = .f32 ∨ d.src_data_type = .bf16
      ∨ d.src_data_type = .f16 ∨ d.src_data_type = .s8)
  ∧ (d.src_data_type = .f16 → d.mayiuse_khr_fp16 = true)
  ∧ d.src_data_type = d.dst_data_type
  ∧ (d.src_data_type = .s8 → d.is_training = false ∧ d.stats_is_src = true)
  ∧ d.check_scale_shift_data_type = true
  ∧ d.attr_has_default_values_post_ops = true
  ∧ (d.attr_has_default_values = false
      → d.post_ops_len = 1 ∧ d.with_relu_post_op = true)
  ∧ d.set_default_formats_common = true
  ∧ d.src_md_eq_dst_md = true
  ∧ d.mayiuse_intel_subgroups = true

instance (d : fwd_desc_t) : Decidable (fwd_pd_ok d) := by
  unfold fwd_pd_ok
  infer_instance

/-- Forward `pd_t::init` (lines 116-150): the `ok` conjunction gates
everything with `status::unimplemented`; then, in training mode with a
fused activation, `CHECK(init_default_ws(8))` propagates a failing
workspace status; then `CHECK(init_conf(engine))` propagates a failing
configuration status; otherwise success. -/
def fwd_pd_init (d : fwd_desc_t) : status_t :=
  if ¬ fwd_pd_ok d then status_t.unimplemented
  else if d.is_training = true
      ∧ (d.fuse_norm_relu = true ∨ d.fuse_norm_add_relu = true)
      ∧ d.init_default_ws_status ≠ status_t.success then
    d.init_default_ws_status
  else if d.init_conf_status ≠ status_t.success then d.init_conf_status
  else status_t.success

/-- The inputs `reusable_batch_normalization_bwd_t::pd_t::init`
(lines 207-235) reads. `mayiuse_intel_subgroups`, `is_training` and
`stats_is_src` are available on the engine/descriptor but never read by
the backward init; they are kept as fields so independence from them is
expressible. -/
structure bwd_desc_t where
  is_fwd : Bool
  src_data_type : data_type_t
  diff_src_data_type : data_type_t
  diff_dst_data_type : data_type_t
  mayiuse_khr_fp16 : Bool
  mayiuse_intel_subgroups : Bool
  is_training : Bool
  stats_is_src : Bool
  check_scale_shift_data_type : Bool
  attr_has_default_values : Bool
  set_default_formats_common : Bool
  diff_src_md_eq_diff_dst_md : Bool
  fuse_norm_relu : Bool
  fuse_norm_add_relu : Bool
  init_default_ws_status : status_t
  compare_ws : Bool
  init_conf_status : status_t

/-- The `ok` conjunction of backward `pd_t::init` (lines 212-223). -/
def bwd_pd_ok (d : bwd_desc_t) : Prop :=
  d.is_fwd = false
  ∧ (d.src_data_type = .f32 ∨ d.src_data_type = .bf16
      ∨ d.src_data_type = .f16)
  ∧ (d.src_data_type = .f16 → d.mayiuse_khr_fp16 = true)
  ∧ d.src_data_type = d.diff_src_data_type
  ∧ d.diff_src_data_type = d.diff_dst_data_type
  ∧ d.check_scale_shift_data_type = true
  ∧ d.attr_has_default_values = true
  ∧ d.set_default_formats_common = true
  ∧ d.diff_src_md_eq_diff_dst_md = true

instance (d : bwd_desc_t) : Decidable (bwd_pd_ok d) := by
  unfold bwd_pd_ok
  infer_instance

/-- Backward `pd_t::init` (lines 207-235): after the `ok` gate, a fused
activation makes it reserve the default workspace
(`CHECK(init_default_ws(8))`) and then reject with `unimplemented` when
`compare_ws(hint_fwd_pd_)` finds the paired forward workspace incompatible;
then `CHECK(init_conf(engine))`. Returns the status together with whether
the workspace was reserved. -/
def bwd_pd_init (d : bwd_desc_t) : status_t × Bool :=
  if ¬ bwd_pd_ok d then (status_t.unimplemented, false)
  else if d.fuse_norm_relu = true ∨ d.fuse_norm_add_relu = true then
    if d.init_default_ws_status ≠ status_t.success then
      (d.init_default_ws_status, false)
    else if d.compare_ws = false then (status_t.unimplemented, true)
    else if d.init_conf_status ≠ status_t.success then
      (d.init_conf_status, true)
    else (status_t.success, true)
  else if d.init_conf_status ≠ status_t.success then
    (d.init_conf_status, false)
  else (status_t.success, false)

/-- Concrete all-zero tiling descriptor, for witnesses. -/
def example_dispatch_params : dispatch_compile_params_t :=
  ⟨List.replicate dispatch_compile_params_size 0, by simp⟩

/-- Concrete configuration record (f32 training with internally computed
statistics), for witnesses. -/
def example_params : reusable_bnorm_params_t where
  data_type := .f32
  use_scale := true
  use_shift := true
  is_training := true
  fuse_norm_relu := false
  fuse_norm_add_relu := false
  with_relu := false
  with_leaky_relu := false
  calculate_stats := true
  padding := zero_padding
  calc_stat_params := example_dispatch_params
  reduce_stat_params := example_dispatch_params
  gws_params := example_dispatch_params

/-- Concrete configuration record with caller-supplied statistics, for
witnesses. -/
def example_params_stats_src : reusable_bnorm_params_t :=
  { example_params with is_training := false, calculate_stats := false }

/-- Concrete configuration record that agrees with `example_params` on all
logical fields but carries nonzero padding bytes, for witnesses. -/
def example_params_padded : reusable_bnorm_params_t :=
  { example_params with padding := ⟨[1, 2, 3, 4], rfl⟩ }

/-- Concrete run-time parameter record, for witnesses. -/
def example_rt : reusable_bnorm_runtime_params_t where
  reduce_dim_stride := 1
  calc_stat_params := ⟨[16]⟩
  reduce_stat_params := ⟨[4]⟩
  gws_params := ⟨[64]⟩
  relu_negative_slope := 0
  eps := 841731191
  stat_ic := 32
  reduction_nelems := 128
  div := 128
  ic := 32

/-- Concrete second run-time parameter record (different channel count),
for witnesses. -/
def example_rt2 : reusable_bnorm_runtime_params_t :=
  { example_rt with ic := 64, stat_ic := 64 }

/-- Concrete forward descriptor requesting 8-bit integer data in training
mode, for witnesses. -/
def example_fwd_desc_s8 : fwd_desc_t where
  is_fwd := true
  src_data_type := .s8
  dst_data_type := .s8
  mayiuse_khr_fp16 := true
  mayiuse_intel_subgroups := true
  is_training := true
  stats_is_src := false
  check_scale_shift_data_type := true
  attr_has_default_values_post_ops := true
  attr_has_default_values := true
  post_ops_len := 0
  with_relu_post_op := false
  set_default_formats_common := true
  src_md_eq_dst_md := true
  fuse_norm_relu := false
  fuse_norm_add_relu := false
  init_default_ws_status := .success
  init_conf_status := .success

/-- Concrete backward descriptor with the workspace-producing fusion and an
incompatible paired-forward workspace, for witnesses. -/
def example_bwd_desc : bwd_desc_t where
  is_fwd := false
  src_data_type := .f32
  diff_src_data_type := .f32
  diff_dst_data_type := .f32
  mayiuse_khr_fp16 := true
  mayiuse_intel_subgroups := true
  is_training := true
  stats_is_src := false
  check_scale_shift_data_type := true
  attr_has_default_values := true
  set_default_formats_common := true
  diff_src_md_eq_diff_dst_md := true
  fuse_norm_relu := true
  fuse_norm_add_relu := false
  init_default_ws_status := .success
  compare_ws := false
  init_conf_status := .success

/-- Concrete backward descriptor requesting 8-bit integer data in inference
mode with caller-supplied statistics, for witnesses. -/
def example_bwd_desc_s8 : bwd_desc_t :=
  { example_bwd_desc with
    src_data_type := .s8
    diff_src_data_type := .s8
    diff_dst_data_type := .s8
    is_training := false
    stats_is_src := true
    fuse_norm_relu := false
    compare_ws := true }

theorem data_type_code_inj (d1 d2 : data_type_t) (h : d1.code = d2.code) :
    d1 = d2 := by
  cases d1 <;> cases d2 <;> first | rfl | exact absurd h (by decide)

theorem encode_bool_inj (b1 b2 : Bool) (h : encode_bool b1 = encode_bool b2) :
    b1 = b2 := by
  cases b1 <;> cases b2 <;> first | rfl | exact absurd h (by decide)

theorem decode_data_type_code (dt : data_type_t) :
    decode_data_type dt.code = some dt := by
  cases dt <;> rfl

theorem decode_bool_encode (b : Bool) : decode_bool (encode_bool b) = some b := by
  cases b <;> rfl

theorem take_chunk_append {n : Nat} {a b : List byte} (h : a.length = n) :
    take_chunk n (a ++ b) = some (⟨a, h⟩, b) := by
  unfold take_chunk
  rw [dif_pos (by simp [h])]
  simp [List.take_left' h, List.drop_left' h]

theorem take_chunk_exact {n : Nat} {a : List byte} (h : a.length = n) :
    take_chunk n a = some (⟨a, h⟩, []) := by
  have := take_chunk_append (b := []) h
  simpa using this

theorem serialize_length (c : reusable_bnorm_params_t) :
    c.serialize.length = serialized_size := by
  simp only [reusable_bnorm_params_t.serialize, serialized_size,
    List.length_cons, List.length_append, c.padding.property,
    c.calc_stat_params.property, c.reduce_stat_params.property,
    c.gws_params.property]
  omega

/-- C1: two configuration records whose explicit padding field holds its
zero-initialized value serialize to the same byte sequence exactly when all
their logical fields (data type, the eight boolean flags, the three tiling
descriptors) agree - serialize is injective over logically distinct
records, and padding never separates logically identical ones because the
only padding is the explicit zero-initialized field. -/
theorem serialize_inj_iff_logical_eq (c1 c2 : reusable_bnorm_params_t)
    (h1 : c1.padding = zero_padding) (h2 : c2.padding = zero_padding) :
    c1.serialize = c2.serialize ↔ logical_fields_eq c1 c2 := by
  obtain ⟨dt1, us1, ush1, it1, fr1, far1, wr1, wlr1, cs1, pad1, csp1, rsp1, gp1⟩ := c1
  obtain ⟨dt2, us2, ush2, it2, fr2, far2, wr2, wlr2, cs2, pad2, csp2, rsp2, gp2⟩ := c2
  have hp : pad1 = pad2 := h1.trans h2.symm
  simp only [reusable_bnorm_params_t.serialize, logical_fields_eq]
  constructor
  · intro hs
    simp only [List.cons.injEq] at hs
    obtain ⟨hdt, -, -, -, hb1, hb2, hb3, hb4, hb5, hb6, hb7, hb8, htail⟩ := hs
    obtain ⟨hpad, htail2⟩ := List.append_inj htail
      (by rw [pad1.property, pad2.property])
    obtain ⟨hcsp, htail3⟩ := List.append_inj htail2
      (by rw [csp1.property, csp2.property])
    obtain ⟨hrsp, hgp⟩ := List.append_inj htail3
      (by rw [rsp1.property, rsp2.property])
    exact ⟨data_type_code_inj _ _ hdt, encode_bool_inj _ _ hb1,
      encode_bool_inj _ _ hb2, encode_bool_inj _ _ hb3, encode_bool_inj _ _ hb4,
      encode_bool_inj _ _ hb5, encode_bool_inj _ _ hb6, encode_bool_inj _ _ hb7,
      encode_bool_inj _ _ hb8, Subtype.ext hcsp, Subtype.ext hrsp,
      Subtype.ext hgp⟩
  · intro hl
    obtain ⟨edt, e1, e2, e3, e4, e5, e6, e7, e8, ecsp, ersp, egp⟩ := hl
    subst edt e1 e2 e3 e4 e5 e6 e7 e8 ecsp ersp egp hp
    rfl

/-- Witness for C1 at two concrete records that differ in logical fields. -/
theorem serialize_inj_iff_logical_eq_witness :
    example_params.serialize = example_params_stats_src.serialize ↔
      logical_fields_eq example_params example_params_stats_src :=
  serialize_inj_iff_logical_eq example_params example_params_stats_src rfl rfl

/-- C2: deserializing the serialized image of any configuration record
recovers the record exactly, field for field. -/
theorem deserialize_serialize_roundtrip (c : reusable_bnorm_params_t) :
    reusable_bnorm_params_t.deserialize c.serialize = some c := by
  obtain ⟨dt, us, ush, it, fr, far, wr, wlr, cs, pad, csp, rsp, gp⟩ := c
  unfold reusable_bnorm_params_t.serialize reusable_bnorm_params_t.deserialize
  rw [if_pos (by
    simp only [List.length_cons, List.length_append, pad.property, csp.property,
      rsp.property, gp.property, serialized_size, dispatch_compile_params_size])]
  simp only [decode_data_type_code, decode_bool_encode, Option.some_bind,
    take_chunk_append pad.property, take_chunk_append csp.property,
    take_chunk_append rsp.property, take_chunk_exact gp.property,
    Option.some.injEq]

/-- C3: with statistics computed internally the forward init requests
exactly the main forward kernel followed by calculate-mean,
calculate-variance, reduce-mean and reduce-variance; with caller-supplied
statistics only the main forward kernel is present and the four auxiliary
positions are null; the backward init always requests the main backward,
calculate-stats and reduce-stats kernels in that order. -/
theorem kernel_set_resolution (pd : fwd_pd_state) (bpd : bwd_pd_state)
    (s1 s2 : status_t) (h1 : pd.has_zero_dim_memory = false)
    (h2 : bpd.has_zero_dim_memory = false) :
    (pd.conf.calculate_stats = true →
      (reusable_batch_normalization_fwd_init pd s1).2
        = [some "reusable_bnorm_fwd", some "reusable_calculate_mean",
           some "reusable_calculate_variance", some "reusable_reduce_mean",
           some "reusable_reduce_variance"]) ∧
    (pd.conf.calculate_stats = false →
      (reusable_batch_normalization_fwd_init pd s1).2
        = [some "reusable_bnorm_fwd", none, none, none, none]) ∧
    (reusable_batch_normalization_bwd_init bpd s2).2
      = [some "reusable_bnorm_bwd", some "reusable_calculate_stats",
         some "reusable_reduce_stats"] := by
  refine ⟨fun hcs => ?_, fun hcs => ?_, ?_⟩
  · simp [reusable_batch_normalization_fwd_init, fwd_kernel_names, h1, hcs]
  · simp [reusable_batch_normalization_fwd_init, fwd_kernel_names, h1, hcs]
  · simp [reusable_batch_normalization_bwd_init, bwd_kernel_names, h2]

/-- Witness for C3 at a concrete training-mode forward state. -/
theorem kernel_set_resolution_witness :
    (reusable_batch_normalization_fwd_init ⟨false, example_params, example_rt⟩
        status_t.success).2
      = [some "reusable_bnorm_fwd", some "reusable_calculate_mean",
         some "reusable_calculate_variance", some "reusable_reduce_mean",
         some "reusable_reduce_variance"] :=
  (kernel_set_resolution ⟨false, example_params, example_rt⟩
    ⟨false, example_params, example_rt⟩ status_t.success status_t.success
    rfl rfl).1 rfl

/-- C4: the kernel-name list the forward init requests, including which
positions are null, depends only on the logical fields of the configuration
record: two primitive states with logically identical configuration records
but arbitrary run-time parameter records (and padding bytes) resolve to the
same ordered list. -/
theorem resolution_function_of_conf (pd1 pd2 : fwd_pd_state)
    (s1 s2 : status_t) (hz1 : pd1.has_zero_dim_memory = false)
    (hz2 : pd2.has_zero_dim_memory = false)
    (h : logical_fields_eq pd1.conf pd2.conf) :
    (reusable_batch_normalization_fwd_init pd1 s1).2
      = (reusable_batch_normalization_fwd_init pd2 s2).2 := by
  have hcs : pd1.conf.calculate_stats = pd2.conf.calculate_stats :=
    h.2.2.2.2.2.2.2.2.1
  simp [reusable_batch_normalization_fwd_init, fwd_kernel_names, hz1, hz2, hcs]

/-- Witness for C4: same logical configuration, different padding bytes and
different run-time records, same resolved list. -/
theorem resolution_function_of_conf_witness :
    (reusable_batch_normalization_fwd_init ⟨false, example_params, example_rt⟩
        status_t.success).2
      = (reusable_batch_normalization_fwd_init
          ⟨false, example_params_padded, example_rt2⟩ status_t.success).2 :=
  resolution_function_of_conf ⟨false, example_params, example_rt⟩
    ⟨false, example_params_padded, example_rt2⟩ status_t.success
    status_t.success rfl rfl (by decide)

/-- C5: a forward descriptor with 8-bit-integer source data that is in
training mode or computes its own statistics always fails validation with
the unimplemented (unsupported-configuration) status. -/
theorem fwd_s8_training_rejected (d : fwd_desc_t)
    (hs8 : d.src_data_type = .s8)
    (h : d.is_training = true ∨ d.stats_is_src = false) :
    fwd_pd_init d = status_t.unimplemented := by
  have hok : ¬ fwd_pd_ok d := by
    intro hok
    have h5 := hok.2.2.2.2.1 hs8
    rcases h with h | h
    · simp [h5.1] at h
    · simp [h5.2] at h
  simp [fwd_pd_init, hok]

/-- Witness for C5: a concrete s8 training-mode forward descriptor. -/
theorem fwd_s8_training_rejected_witness :
    fwd_pd_init example_fwd_desc_s8 = status_t.unimplemented :=
  fwd_s8_training_rejected example_fwd_desc_s8 rfl (Or.inl rfl)

/-- C6: a primitive whose descriptor has a zero-sized dimension builds no
kernel at init, issues no launch at execute, and both report success in
both directions. -/
theorem zero_dim_short_circuit (pd : fwd_pd_state) (bpd : bwd_pd_state)
    (s1 s2 d1 d2 : status_t) (h1 : pd.has_zero_dim_memory = true)
    (h2 : bpd.has_zero_dim_memory = true) :
    reusable_batch_normalization_fwd_init pd s1 = (status_t.success, []) ∧
    reusable_batch_normalization_bwd_init bpd s2 = (status_t.success, []) ∧
    execute_forward pd d1 = (status_t.success, 0) ∧
    execute_backward bpd d2 = (status_t.success, 0) := by
  simp [reusable_batch_normalization_fwd_init,
    reusable_batch_normalization_bwd_init, execute_forward, execute_backward,
    h1, h2]

/-- Witness for C6 at concrete zero-dimension states, with failing
collaborator statuses to show they are never consulted. -/
theorem zero_dim_short_circuit_witness :
    reusable_batch_normalization_fwd_init ⟨true, example_params, example_rt⟩
        status_t.runtime_error = (status_t.success, []) ∧
    reusable_batch_normalization_bwd_init ⟨true, example_params, example_rt⟩
        status_t.runtime_error = (status_t.success, []) ∧
    execute_forward ⟨true, example_params, example_rt⟩ status_t.runtime_error
      = (status_t.success, 0) ∧
    execute_backward ⟨true, example_params, example_rt⟩ status_t.runtime_error
      = (status_t.success, 0) :=
  zero_dim_short_circuit ⟨true, example_params, example_rt⟩
    ⟨true, example_params, example_rt⟩ status_t.runtime_error
    status_t.runtime_error status_t.runtime_error status_t.runtime_error
    rfl rfl

/-- C7: a backward descriptor with the workspace-producing fusion that
passes the basic validation conjunction and whose default-workspace
reservation succeeds does reserve the workspace, and is rejected with the
unimplemented status when its workspace is incompatible with the paired
forward call's workspace. -/
theorem bwd_ws_pairing (d : bwd_desc_t)
    (hf : d.fuse_norm_relu = true ∨ d.fuse_norm_add_relu = true)
    (hok : bwd_pd_ok d) (hws : d.init_default_ws_status = status_t.success) :
    (bwd_pd_init d).2 = true ∧
    (d.compare_ws = false → (bwd_pd_init d).1 = status_t.unimplemented) := by
  constructor
  · simp only [bwd_pd_init, hok, not_true_eq_false, if_false, if_pos hf, hws,
      ne_eq, not_true_eq_false, ite_false]
    split_ifs <;> rfl
  · intro hc
    simp [bwd_pd_init, hok, hf, hws, hc]

/-- Witness for C7 at a concrete fused backward descriptor with an
incompatible paired-forward workspace. -/
theorem bwd_ws_pairing_witness :
    (bwd_pd_init example_bwd_desc).2 = true ∧
    (example_bwd_desc.compare_ws = false →
      (bwd_pd_init example_bwd_desc).1 = status_t.unimplemented) :=
  bwd_ws_pairing example_bwd_desc (Or.inl rfl) (by decide) rfl

/-- C8: deserializing a byte sequence whose length differs from the
expected record size is a hard failure (`none`), never a silently misread
record. -/
theorem deserialize_length_mismatch (s : List byte)
    (h : s.length ≠ serialized_size) :
    reusable_bnorm_params_t.deserialize s = none := by
  unfold reusable_bnorm_params_t.deserialize
  rw [if_neg h]

/-- Witness for C8 at the empty byte sequence. -/
theorem deserialize_length_mismatch_witness :
    ([] : List byte).length ≠ serialized_size ∧
    reusable_bnorm_params_t.deserialize [] = none :=
  ⟨by decide, deserialize_length_mismatch [] (by decide)⟩

/-- C9: backward validation rejects every source data type other than f32,
bf16 and f16 with the unimplemented status; in particular 8-bit integer is
always rejected. -/
theorem bwd_dtype_rejected (d : bwd_desc_t)
    (h32 : d.src_data_type ≠ .f32) (hbf : d.src_data_type ≠ .bf16)
    (hf16 : d.src_data_type ≠ .f16) :
    (bwd_pd_init d).1 = status_t.unimplemented := by
  have hok : ¬ bwd_pd_ok d := by
    intro hok
    rcases hok.2.1 with h | h | h
    · exact h32 h
    · exact hbf h
    · exact hf16 h
  simp [bwd_pd_init, hok]

/-- Witness for C9: a concrete s8 backward descriptor in inference mode
with caller-supplied statistics, which the forward direction would accept. -/
theorem bwd_dtype_rejected_witness :
    (bwd_pd_init example_bwd_desc_s8).1 = status_t.unimplemented :=
  bwd_dtype_rejected example_bwd_desc_s8 (by decide) (by decide) (by decide)

/-- C10: forward validation fails with the unimplemented status whenever
the device lacks the intel_subgroups extension, for every descriptor;
backward validation is entirely independent of that extension. -/
theorem subgroups_requirement :
    (∀ d : fwd_desc_t, d.mayiuse_intel_subgroups = false →
      fwd_pd_init d = status_t.unimplemented) ∧
    (∀ (d : bwd_desc_t) (b1 b2 : Bool),
      bwd_pd_init { d with mayiuse_intel_subgroups := b1 }
        = bwd_pd_init { d with mayiuse_intel_subgroups := b2 }) := by
  constructor
  · intro d h
    have hok : ¬ fwd_pd_ok d := by
      intro hok
      simp [hok.2.2.2.2.2.2.2.2.2.2] at h
    simp [fwd_pd_init, hok]
  · intro d b1 b2
    rfl

/-- Witness for C10 at concrete descriptors: a subgroups-less forward
descriptor is rejected, and flipping the extension bit leaves the backward
result unchanged. -/
theorem subgroups_requirement_witness :
    fwd_pd_init { example_fwd_desc_s8 with
        src_data_type := .f32
        dst_data_type := .f32
        mayiuse_intel_subgroups := false }
      = status_t.unimplemented ∧
    bwd_pd_init { example_bwd_desc with mayiuse_intel_subgroups := false }
      = bwd_pd_init { example_bwd_desc with mayiuse_intel_subgroups := true } :=
  ⟨subgroups_requirement.1 _ rfl,
   subgroups_requirement.2 example_bwd_desc false true⟩

end ReusableBnorm
